import Mathlib

/-!
Verification of the BaZi (Four Pillars) calculator in `src/app.py`.

The Python module converts a Gregorian civil date-time into four (stem,
branch) index pairs plus element / yin-yang tallies.  This file gives a
shallow embedding of the core computation:

* `DateTime` models a Python `datetime` value at minute granularity (the
  application layer parses `%Y-%m-%d %H:%M`, so seconds and microseconds
  are always zero); comparison of `datetime` values is lexicographic on
  the fields, modelled by `DateTime.Lt`.
* `mkDatetime` models the `datetime(year, month, day)` constructor, which
  raises `ValueError` outside the representable range (years 1..9999,
  valid Gregorian month/day); failure is modelled by `Option`.
* `toOrdinal` is CPython's `date.toordinal` (proleptic Gregorian day
  number, 0001-01-01 = day 1), which underlies `date` subtraction in
  `get_day_pillar`.
* `get_year_pillar`, `get_day_pillar`, `get_month_pillar`,
  `get_hour_pillar` and `calculate_bazi` are direct translations of the
  functions of the same names in `src/app.py`.  The lunar-new-year JSON
  table is an external data file, injected here as a parameter
  `lunar_new_year : Nat → Option DateTime` (absent file / absent year
  entry is `none`).  Python dicts with the five fixed element keys are
  modelled as association lists.
-/

/-- A Python `datetime` value at minute granularity. -/
structure DateTime where
  year : Nat
  month : Nat
  day : Nat
  hour : Nat
  minute : Nat
deriving DecidableEq

/-- Python `datetime` comparison `a < b`: lexicographic on the fields. -/
def DateTime.Lt (a b : DateTime) : Prop :=
  a.year < b.year ∨ (a.year = b.year ∧
    (a.month < b.month ∨ (a.month = b.month ∧
      (a.day < b.day ∨ (a.day = b.day ∧
        (a.hour < b.hour ∨ (a.hour = b.hour ∧ a.minute < b.minute)))))))

instance (a b : DateTime) : Decidable (DateTime.Lt a b) := by
  unfold DateTime.Lt; infer_instance

/-- Python `datetime` comparison `a <= b` (lexicographic order is total,
so `a <= b` is the negation of `b < a`). -/
def DateTime.Le (a b : DateTime) : Prop := ¬ DateTime.Lt b a

instance (a b : DateTime) : Decidable (DateTime.Le a b) := by
  unfold DateTime.Le; infer_instance

/-- Gregorian leap year, as in CPython's `datetime` module. -/
def isLeap (y : Nat) : Prop := (y % 4 = 0 ∧ y % 100 ≠ 0) ∨ y % 400 = 0

instance (y : Nat) : Decidable (isLeap y) := by
  unfold isLeap; infer_instance

/-- Number of days of a Gregorian month (month index 1..12). -/
def daysInMonth (y m : Nat) : Nat :=
  match m with
  | 1 => 31
  | 2 => if isLeap y then 29 else 28
  | 3 => 31
  | 4 => 30
  | 5 => 31
  | 6 => 30
  | 7 => 31
  | 8 => 31
  | 9 => 30
  | 10 => 31
  | 11 => 30
  | 12 => 31
  | _ => 0

/-- Days in year `y` strictly before month `m`. -/
def daysBeforeMonth (y m : Nat) : Nat :=
  match m with
  | 0 => 0
  | 1 => 0
  | Nat.succ (Nat.succ k) => daysBeforeMonth y (k + 1) + daysInMonth y (k + 1)

/-- CPython `date.toordinal`: proleptic Gregorian day number with
0001-01-01 = day 1.  `date` subtraction in `get_day_pillar` is the
difference of these ordinals. -/
def toOrdinal (y m d : Nat) : Nat :=
  365 * (y - 1) + (y - 1) / 4 - (y - 1) / 100 + (y - 1) / 400 + daysBeforeMonth y m + d

/-- The fields a `datetime` value may hold: the constructor raises
`ValueError` outside these ranges. -/
def ValidDT (dt : DateTime) : Prop :=
  1 ≤ dt.year ∧ dt.year ≤ 9999 ∧ 1 ≤ dt.month ∧ dt.month ≤ 12 ∧
    1 ≤ dt.day ∧ dt.day ≤ daysInMonth dt.year dt.month ∧ dt.hour ≤ 23 ∧ dt.minute ≤ 59

instance (dt : DateTime) : Decidable (ValidDT dt) := by
  unfold ValidDT; infer_instance

/-- The Python `datetime(year, month, day, hour, minute)` constructor:
`some` value in range, `none` models the `ValueError` raise. -/
def mkDatetime (y m d hh mm : Nat) : Option DateTime :=
  if 1 ≤ y ∧ y ≤ 9999 ∧ 1 ≤ m ∧ m ≤ 12 ∧ 1 ≤ d ∧ d ≤ daysInMonth y m ∧ hh ≤ 23 ∧ mm ≤ 59
  then some ⟨y, m, d, hh, mm⟩ else none

/-- Successor date in the Gregorian calendar (time of day unchanged);
used to state that `toOrdinal` counts calendar days. -/
def nextDate (dt : DateTime) : DateTime :=
  if dt.day < daysInMonth dt.year dt.month then
    ⟨dt.year, dt.month, dt.day + 1, dt.hour, dt.minute⟩
  else if dt.month < 12 then
    ⟨dt.year, dt.month + 1, 1, dt.hour, dt.minute⟩
  else
    ⟨dt.year + 1, 1, 1, dt.hour, dt.minute⟩

/-- One entry of `HEAVENLY_STEMS` / `EARTHLY_BRANCHES` in `src/app.py`. -/
structure CyclicSymbol where
  name : String
  element : String
  yin_yang : String
deriving DecidableEq

/-- The `HEAVENLY_STEMS` table of `src/app.py`. -/
def HEAVENLY_STEMS : List CyclicSymbol := [
  ⟨"甲", "木", "阳"⟩,
  ⟨"乙", "木", "阴"⟩,
  ⟨"丙", "火", "阳"⟩,
  ⟨"丁", "火", "阴"⟩,
  ⟨"戊", "土", "阳"⟩,
  ⟨"己", "土", "阴"⟩,
  ⟨"庚", "金", "阳"⟩,
  ⟨"辛", "金", "阴"⟩,
  ⟨"壬", "水", "阳"⟩,
  ⟨"癸", "水", "阴"⟩]

/-- The `EARTHLY_BRANCHES` table of `src/app.py`. -/
def EARTHLY_BRANCHES : List CyclicSymbol := [
  ⟨"子", "水", "阳"⟩,
  ⟨"丑", "土", "阴"⟩,
  ⟨"寅", "木", "阳"⟩,
  ⟨"卯", "木", "阴"⟩,
  ⟨"辰", "土", "阳"⟩,
  ⟨"巳", "火", "阴"⟩,
  ⟨"午", "火", "阳"⟩,
  ⟨"未", "土", "阴"⟩,
  ⟨"申", "金", "阳"⟩,
  ⟨"酉", "金", "阴"⟩,
  ⟨"戌", "土", "阳"⟩,
  ⟨"亥", "水", "阴"⟩]

/-- Lookup `HEAVENLY_STEMS[i]` (always used with `i < 10` in the source). -/
def stemAt (i : Nat) : CyclicSymbol := HEAVENLY_STEMS.getD i ⟨"", "", ""⟩

/-- Lookup `EARTHLY_BRANCHES[i]` (always used with `i < 12` in the source). -/
def branchAt (i : Nat) : CyclicSymbol := EARTHLY_BRANCHES.getD i ⟨"", "", ""⟩

/-- Function `get_year_pillar` of `src/app.py`.  The lunar-new-year JSON table is
injected as `lunar_new_year`; a missing file or missing year entry is
`none` and falls back to the fixed February-4 boundary.  Python `%` on a
positive modulus agrees with `Int.emod`. -/
def get_year_pillar (lunar_new_year : Nat → Option DateTime) (dt : DateTime) : Int × Int :=
  let year : Nat :=
    match lunar_new_year dt.year with
    | some lny => if DateTime.Lt dt lny then dt.year - 1 else dt.year
    | none => if dt.month < 2 ∨ (dt.month = 2 ∧ dt.day < 4) then dt.year - 1 else dt.year
  let offset : Int := (year : Int) - 1984
  ((offset % 10) % 10, (offset % 12) % 12)

/-- The quantity `(dt.date() - date(1900, 1, 1)).days` in `get_day_pillar`: signed
difference of proleptic Gregorian ordinals. -/
def delta_days (dt : DateTime) : Int :=
  (toOrdinal dt.year dt.month dt.day : Int) - (toOrdinal 1900 1 1 : Int)

/-- Function `get_day_pillar` of `src/app.py`. -/
def get_day_pillar (dt : DateTime) : Int × Int :=
  ((6 + delta_days dt) % 10, (0 + delta_days dt) % 12)

/-- The `boundaries` list of `get_month_pillar`: approximate solar-term
start `(month, day)` pairs. -/
def boundaries : List (Nat × Nat) :=
  [(2, 4), (3, 6), (4, 5), (5, 5), (6, 6), (7, 7), (8, 8), (9, 8), (10, 8), (11, 7), (12, 7), (1, 6)]

/-- Collect a list of fallible computations; the first failure (a raised
exception in Python) aborts the whole list. -/
def optionList {α : Type} : List (Option α) → Option (List α)
  | [] => some []
  | o :: rest => do
      let x ← o
      let xs ← optionList rest
      some (x :: xs)

/-- The `boundary_dates` loop of `get_month_pillar`: each entry is built
with `datetime(year, m, d)` where the final (January) boundary uses
`current_year + 1`; a `ValueError` raise is `none`. -/
def boundary_dates (current_year : Nat) : Option (List DateTime) :=
  optionList (boundaries.enum.map (fun im =>
    mkDatetime (if im.1 < 11 then current_year else current_year + 1) im.2.1 im.2.2 0 0))

/-- The `for i in range(len(boundary_dates) - 1)` search of
`get_month_pillar`: first `i` with `bds[i] <= dt < bds[i+1]`, else the
loop's `else` clause (`none`). -/
def findMonthIndex (dt : DateTime) : List DateTime → Nat → Option Nat
  | [], _ => none
  | [_], _ => none
  | b1 :: b2 :: rest, i =>
      if DateTime.Le b1 dt ∧ DateTime.Lt dt b2 then some i
      else findMonthIndex dt (b2 :: rest) (i + 1)

/-- The `five_tigers_start` dict of `get_month_pillar`, with
`dict.get(year_stem, 2)` defaulting to 2. -/
def five_tigers_start (year_stem : Int) : Int :=
  if year_stem = 0 ∨ year_stem = 5 then 2
  else if year_stem = 1 ∨ year_stem = 6 then 4
  else if year_stem = 2 ∨ year_stem = 7 then 6
  else if year_stem = 3 ∨ year_stem = 8 then 8
  else if year_stem = 4 ∨ year_stem = 9 then 0
  else 2

/-- Function `get_month_pillar` of `src/app.py`.  The `year_branch` parameter is
accepted (as in the source) but never read.  A `ValueError` raised while
building `boundary_dates` propagates as `none`. -/
def get_month_pillar (year_stem : Int) (year_branch : Int) (dt : DateTime) :
    Option (Int × Int) := do
  let bds ← boundary_dates dt.year
  let month_branch_index : Int :=
    if DateTime.Lt dt (bds.getD 0 ⟨0, 0, 0, 0, 0⟩) then 1
    else
      match findMonthIndex dt bds 0 with
      | some i => (2 + (i : Int)) % 12
      | none => 1
  let start_stem := five_tigers_start year_stem
  let relative_idx := (month_branch_index - 2) % 12
  let stem_index := (start_stem + relative_idx) % 10
  some (stem_index, month_branch_index)

/-- Function `get_hour_pillar` of `src/app.py`. -/
def get_hour_pillar (day_stem : Int) (dt : DateTime) : Int × Int :=
  let branch_index : Int := (((dt.hour + 1) / 2) % 12 : Nat)
  let stem_index : Int := (day_stem * 2 + branch_index) % 10
  (stem_index, branch_index)

/-- One entry of the `pillars` list built by `calculate_bazi`. -/
structure PillarOut where
  pillar : String
  stem_index : Int
  branch_index : Int
  stem : String
  branch : String
deriving DecidableEq

/-- The `elements_count` dict initialised by `calculate_bazi`, as an
association list with the five fixed keys. -/
def init_elements : List (String × Nat) :=
  [("木", 0), ("火", 0), ("土", 0), ("金", 0), ("水", 0)]

/-- Update `elements_count[k] += 1` on the association-list model of the dict. -/
def dictInc (l : List (String × Nat)) (k : String) : List (String × Nat) :=
  l.map (fun kv => if kv.1 = k then (kv.1, kv.2 + 1) else kv)

/-- One iteration of the `for p in pillars` tally loop of
`calculate_bazi`. -/
def tally_step (acc : List (String × Nat) × Nat × Nat) (p : PillarOut) :
    List (String × Nat) × Nat × Nat :=
  let stem := stemAt p.stem_index.toNat
  let branch := branchAt p.branch_index.toNat
  (dictInc (dictInc acc.1 stem.element) branch.element,
   acc.2.1 + (if stem.yin_yang = "阴" then 1 else 0) + (if branch.yin_yang = "阴" then 1 else 0),
   acc.2.2 + (if stem.yin_yang = "阳" then 1 else 0) + (if branch.yin_yang = "阳" then 1 else 0))

/-- The result dict of `calculate_bazi`. -/
structure BaziResult where
  pillars : List PillarOut
  elements_count : List (String × Nat)
  yin : Nat
  yang : Nat
deriving DecidableEq

/-- Function `calculate_bazi` of `src/app.py` (the `computePillars` operation of
the spec), with the lunar-new-year table injected. -/
def calculate_bazi (lunar_new_year : Nat → Option DateTime) (dt : DateTime) :
    Option BaziResult := do
  let yp := get_year_pillar lunar_new_year dt
  let dp := get_day_pillar dt
  let mp ← get_month_pillar yp.1 yp.2 dt
  let hp := get_hour_pillar dp.1 dt
  let pillars : List PillarOut := [
    ⟨"年柱", yp.1, yp.2, (stemAt yp.1.toNat).name, (branchAt yp.2.toNat).name⟩,
    ⟨"月柱", mp.1, mp.2, (stemAt mp.1.toNat).name, (branchAt mp.2.toNat).name⟩,
    ⟨"日柱", dp.1, dp.2, (stemAt dp.1.toNat).name, (branchAt dp.2.toNat).name⟩,
    ⟨"时柱", hp.1, hp.2, (stemAt hp.1.toNat).name, (branchAt hp.2.toNat).name⟩]
  let tallied := pillars.foldl tally_step (init_elements, 0, 0)
  some { pillars := pillars, elements_count := tallied.1, yin := tallied.2.1, yang := tallied.2.2 }

/-! ### Spec-side definitions -/

/-- The twelve solar-term boundary date-times for an input in Gregorian
year `y`, as listed in the spec (Feb 4 .. Dec 7 of `y`, then Jan 6 of
`y + 1`). -/
def specBoundary (y : Nat) : Nat → DateTime
  | 0 => ⟨y, 2, 4, 0, 0⟩
  | 1 => ⟨y, 3, 6, 0, 0⟩
  | 2 => ⟨y, 4, 5, 0, 0⟩
  | 3 => ⟨y, 5, 5, 0, 0⟩
  | 4 => ⟨y, 6, 6, 0, 0⟩
  | 5 => ⟨y, 7, 7, 0, 0⟩
  | 6 => ⟨y, 8, 8, 0, 0⟩
  | 7 => ⟨y, 9, 8, 0, 0⟩
  | 8 => ⟨y, 10, 8, 0, 0⟩
  | 9 => ⟨y, 11, 7, 0, 0⟩
  | 10 => ⟨y, 12, 7, 0, 0⟩
  | _ => ⟨y + 1, 1, 6, 0, 0⟩

/-- The BaZi year as the spec resolves it: the calendar year, decremented
by 1 exactly when the date-time falls before that year's boundary — the
table's lunar-new-year date when the year has an entry, otherwise the
fixed February-4 fallback. -/
def resolvedBaziYear (lunar_new_year : Nat → Option DateTime) (dt : DateTime) : Int :=
  match lunar_new_year dt.year with
  | some lny => if DateTime.Lt dt lny then (dt.year : Int) - 1 else (dt.year : Int)
  | none =>
      if DateTime.Lt dt ⟨dt.year, 2, 4, 0, 0⟩ then (dt.year : Int) - 1 else (dt.year : Int)

/-! ### Order helper lemmas -/

lemma DateTime.Lt_trans {a b c : DateTime} (h1 : DateTime.Lt a b) (h2 : DateTime.Lt b c) :
    DateTime.Lt a c := by
  unfold DateTime.Lt at *
  omega

lemma specBoundary_lt {y : Nat} {i j : Nat} (hij : i < j) (hj : j ≤ 11) :
    DateTime.Lt (specBoundary y i) (specBoundary y j) := by
  interval_cases j <;> interval_cases i <;> (simp [specBoundary, DateTime.Lt]; try omega)

/-! ### Calendar helper lemmas -/

lemma daysInMonth_pos {y m : Nat} (h1 : 1 ≤ m) (h2 : m ≤ 12) : 28 ≤ daysInMonth y m := by
  interval_cases m <;> (simp [daysInMonth]; try split_ifs) <;> omega

lemma daysBeforeMonth_succ (y m : Nat) (h : 1 ≤ m) :
    daysBeforeMonth y (m + 1) = daysBeforeMonth y m + daysInMonth y m := by
  cases m with
  | zero => omega
  | succ k => rfl

/-- Lemma: `toOrdinal` counts calendar days: moving to the next Gregorian date
increments it by exactly one. -/
lemma toOrdinal_nextDate (dt : DateTime) (hv : ValidDT dt) :
    toOrdinal (nextDate dt).year (nextDate dt).month (nextDate dt).day
      = toOrdinal dt.year dt.month dt.day + 1 := by
  obtain ⟨hy1, hy2, hm1, hm2, hd1, hd2, _, _⟩ := hv
  unfold nextDate
  split_ifs with h1 h2
  · dsimp only
    simp only [toOrdinal]
    omega
  · dsimp only
    simp only [toOrdinal]
    rw [daysBeforeMonth_succ dt.year dt.month hm1]
    omega
  · -- year rollover: month 12, day 31
    have hm : dt.month = 12 := by omega
    rw [hm] at h1 hd2
    simp [daysInMonth] at h1 hd2
    have hd : dt.day = 31 := by omega
    dsimp only
    simp only [toOrdinal, hm, hd]
    have hdbm : daysBeforeMonth dt.year 12 = 334 + (if isLeap dt.year then 1 else 0) := by
      simp [daysBeforeMonth, daysInMonth]
      split_ifs <;> omega
    rw [hdbm]
    simp only [daysBeforeMonth]
    have hy : 1 ≤ dt.year := hy1
    rcases Nat.lt_or_ge (dt.year % 4) 1 with h4 | h4 <;>
      (split_ifs with hL <;> (unfold isLeap at hL; omega))

/-! ### Boundary construction lemmas -/

lemma mkDatetime_ok (y m d : Nat) (h1 : 1 ≤ y) (h2 : y ≤ 9999) (hm1 : 1 ≤ m) (hm2 : m ≤ 12)
    (hd1 : 1 ≤ d) (hd2 : d ≤ 28) : mkDatetime y m d 0 0 = some ⟨y, m, d, 0, 0⟩ := by
  unfold mkDatetime
  rw [if_pos]
  have h28 := daysInMonth_pos (y := y) hm1 hm2
  exact ⟨h1, h2, hm1, hm2, hd1, by omega, by omega, by omega⟩

/-- For an input year between 1 and 9998 every `datetime` construction in
the `boundary_dates` loop succeeds, yielding the twelve spec boundaries. -/
lemma boundary_dates_eq (y : Nat) (h1 : 1 ≤ y) (h2 : y ≤ 9998) :
    boundary_dates y = some [specBoundary y 0, specBoundary y 1, specBoundary y 2,
      specBoundary y 3, specBoundary y 4, specBoundary y 5, specBoundary y 6,
      specBoundary y 7, specBoundary y 8, specBoundary y 9, specBoundary y 10,
      specBoundary y 11] := by
  unfold boundary_dates boundaries
  simp only [List.enum, List.enumFrom, List.map]
  norm_num
  rw [mkDatetime_ok y 2 4 h1 (by omega) (by omega) (by omega) (by omega) (by omega)]
  rw [mkDatetime_ok y 3 6 h1 (by omega) (by omega) (by omega) (by omega) (by omega)]
  rw [mkDatetime_ok y 4 5 h1 (by omega) (by omega) (by omega) (by omega) (by omega)]
  rw [mkDatetime_ok y 5 5 h1 (by omega) (by omega) (by omega) (by omega) (by omega)]
  rw [mkDatetime_ok y 6 6 h1 (by omega) (by omega) (by omega) (by omega) (by omega)]
  rw [mkDatetime_ok y 7 7 h1 (by omega) (by omega) (by omega) (by omega) (by omega)]
  rw [mkDatetime_ok y 8 8 h1 (by omega) (by omega) (by omega) (by omega) (by omega)]
  rw [mkDatetime_ok y 9 8 h1 (by omega) (by omega) (by omega) (by omega) (by omega)]
  rw [mkDatetime_ok y 10 8 h1 (by omega) (by omega) (by omega) (by omega) (by omega)]
  rw [mkDatetime_ok y 11 7 h1 (by omega) (by omega) (by omega) (by omega) (by omega)]
  rw [mkDatetime_ok y 12 7 h1 (by omega) (by omega) (by omega) (by omega) (by omega)]
  rw [mkDatetime_ok (y + 1) 1 6 (by omega) (by omega) (by omega) (by omega) (by omega) (by omega)]
  simp [optionList, specBoundary]

/-- The twelve boundaries as a list (the value `boundary_dates` returns
for a year below 9999). -/
def specBoundaryList (y : Nat) : List DateTime :=
  [specBoundary y 0, specBoundary y 1, specBoundary y 2, specBoundary y 3,
   specBoundary y 4, specBoundary y 5, specBoundary y 6, specBoundary y 7,
   specBoundary y 8, specBoundary y 9, specBoundary y 10, specBoundary y 11]

/-- The month branch index computed by the interval search of
`get_month_pillar`, isolated for reasoning. -/
def monthBranchIdx (dt : DateTime) : Int :=
  if DateTime.Lt dt (specBoundary dt.year 0) then 1
  else
    match findMonthIndex dt (specBoundaryList dt.year) 0 with
    | some i => (2 + (i : Int)) % 12
    | none => 1

lemma not_lt_of_le_bd {dt : DateTime} {y i j : Nat} (h : DateTime.Le (specBoundary y i) dt)
    (hj : j ≤ i) (hi : i ≤ 11) : ¬ DateTime.Lt dt (specBoundary y j) := by
  intro hc
  rcases Nat.lt_or_ge j i with hji | hji
  · exact h (DateTime.Lt_trans hc (specBoundary_lt hji hi))
  · have : j = i := by omega
    subst this
    exact h hc

lemma get_month_pillar_eq (ys yb : Int) (dt : DateTime) (h1 : 1 ≤ dt.year)
    (h2 : dt.year ≤ 9998) :
    get_month_pillar ys yb dt =
      some ((five_tigers_start ys + ((monthBranchIdx dt - 2) % 12)) % 10, monthBranchIdx dt) := by
  unfold get_month_pillar
  rw [boundary_dates_eq dt.year h1 h2]
  simp only [Option.bind_eq_bind, Option.some_bind, List.getD_cons_zero, monthBranchIdx,
    specBoundaryList]

/-- The interval search returns index `i` exactly on the half-open
interval `[boundary i, boundary (i+1))`. -/
lemma findMonthIndex_interval {dt : DateTime} {y i : Nat} (hi : i < 11)
    (hle : DateTime.Le (specBoundary y i) dt)
    (hlt : DateTime.Lt dt (specBoundary y (i + 1))) :
    findMonthIndex dt (specBoundaryList y) 0 = some i := by
  simp only [specBoundaryList]
  interval_cases i
  case _ =>
      rw [findMonthIndex, if_pos (And.intro hle hlt)]
  case _ =>
      rw [findMonthIndex, if_neg (fun hc => not_lt_of_le_bd hle (by omega) (by omega) hc.2)]
      rw [findMonthIndex, if_pos (And.intro hle hlt)]
  case _ =>
      rw [findMonthIndex, if_neg (fun hc => not_lt_of_le_bd hle (by omega) (by omega) hc.2)]
      rw [findMonthIndex, if_neg (fun hc => not_lt_of_le_bd hle (by omega) (by omega) hc.2)]
      rw [findMonthIndex, if_pos (And.intro hle hlt)]
  case _ =>
      rw [findMonthIndex, if_neg (fun hc => not_lt_of_le_bd hle (by omega) (by omega) hc.2)]
      rw [findMonthIndex, if_neg (fun hc => not_lt_of_le_bd hle (by omega) (by omega) hc.2)]
      rw [findMonthIndex, if_neg (fun hc => not_lt_of_le_bd hle (by omega) (by omega) hc.2)]
      rw [findMonthIndex, if_pos (And.intro hle hlt)]
  case _ =>
      rw [findMonthIndex, if_neg (fun hc => not_lt_of_le_bd hle (by omega) (by omega) hc.2)]
      rw [findMonthIndex, if_neg (fun hc => not_lt_of_le_bd hle (by omega) (by omega) hc.2)]
      rw [findMonthIndex, if_neg (fun hc => not_lt_of_le_bd hle (by omega) (by omega) hc.2)]
      rw [findMonthIndex, if_neg (fun hc => not_lt_of_le_bd hle (by omega) (by omega) hc.2)]
      rw [findMonthIndex, if_pos (And.intro hle hlt)]
  case _ =>
      rw [findMonthIndex, if_neg (fun hc => not_lt_of_le_bd hle (by omega) (by omega) hc.2)]
      rw [findMonthIndex, if_neg (fun hc => not_lt_of_le_bd hle (by omega) (by omega) hc.2)]
      rw [findMonthIndex, if_neg (fun hc => not_lt_of_le_bd hle (by omega) (by omega) hc.2)]
      rw [findMonthIndex, if_neg (fun hc => not_lt_of_le_bd hle (by omega) (by omega) hc.2)]
      rw [findMonthIndex, if_neg (fun hc => not_lt_of_le_bd hle (by omega) (by omega) hc.2)]
      rw [findMonthIndex, if_pos (And.intro hle hlt)]
  case _ =>
      rw [findMonthIndex, if_neg (fun hc => not_lt_of_le_bd hle (by omega) (by omega) hc.2)]
      rw [findMonthIndex, if_neg (fun hc => not_lt_of_le_bd hle (by omega) (by omega) hc.2)]
      rw [findMonthIndex, if_neg (fun hc => not_lt_of_le_bd hle (by omega) (by omega) hc.2)]
      rw [findMonthIndex, if_neg (fun hc => not_lt_of_le_bd hle (by omega) (by omega) hc.2)]
      rw [findMonthIndex, if_neg (fun hc => not_lt_of_le_bd hle (by omega) (by omega) hc.2)]
      rw [findMonthIndex, if_neg (fun hc => not_lt_of_le_bd hle (by omega) (by omega) hc.2)]
      rw [findMonthIndex, if_pos (And.intro hle hlt)]
  case _ =>
      rw [findMonthIndex, if_neg (fun hc => not_lt_of_le_bd hle (by omega) (by omega) hc.2)]
      rw [findMonthIndex, if_neg (fun hc => not_lt_of_le_bd hle (by omega) (by omega) hc.2)]
      rw [findMonthIndex, if_neg (fun hc => not_lt_of_le_bd hle (by omega) (by omega) hc.2)]
      rw [findMonthIndex, if_neg (fun hc => not_lt_of_le_bd hle (by omega) (by omega) hc.2)]
      rw [findMonthIndex, if_neg (fun hc => not_lt_of_le_bd hle (by omega) (by omega) hc.2)]
      rw [findMonthIndex, if_neg (fun hc => not_lt_of_le_bd hle (by omega) (by omega) hc.2)]
      rw [findMonthIndex, if_neg (fun hc => not_lt_of_le_bd hle (by omega) (by omega) hc.2)]
      rw [findMonthIndex, if_pos (And.intro hle hlt)]
  case _ =>
      rw [findMonthIndex, if_neg (fun hc => not_lt_of_le_bd hle (by omega) (by omega) hc.2)]
      rw [findMonthIndex, if_neg (fun hc => not_lt_of_le_bd hle (by omega) (by omega) hc.2)]
      rw [findMonthIndex, if_neg (fun hc => not_lt_of_le_bd hle (by omega) (by omega) hc.2)]
      rw [findMonthIndex, if_neg (fun hc => not_lt_of_le_bd hle (by omega) (by omega) hc.2)]
      rw [findMonthIndex, if_neg (fun hc => not_lt_of_le_bd hle (by omega) (by omega) hc.2)]
      rw [findMonthIndex, if_neg (fun hc => not_lt_of_le_bd hle (by omega) (by omega) hc.2)]
      rw [findMonthIndex, if_neg (fun hc => not_lt_of_le_bd hle (by omega) (by omega) hc.2)]
      rw [findMonthIndex, if_neg (fun hc => not_lt_of_le_bd hle (by omega) (by omega) hc.2)]
      rw [findMonthIndex, if_pos (And.intro hle hlt)]
  case _ =>
      rw [findMonthIndex, if_neg (fun hc => not_lt_of_le_bd hle (by omega) (by omega) hc.2)]
      rw [findMonthIndex, if_neg (fun hc => not_lt_of_le_bd hle (by omega) (by omega) hc.2)]
      rw [findMonthIndex, if_neg (fun hc => not_lt_of_le_bd hle (by omega) (by omega) hc.2)]
      rw [findMonthIndex, if_neg (fun hc => not_lt_of_le_bd hle (by omega) (by omega) hc.2)]
      rw [findMonthIndex, if_neg (fun hc => not_lt_of_le_bd hle (by omega) (by omega) hc.2)]
      rw [findMonthIndex, if_neg (fun hc => not_lt_of_le_bd hle (by omega) (by omega) hc.2)]
      rw [findMonthIndex, if_neg (fun hc => not_lt_of_le_bd hle (by omega) (by omega) hc.2)]
      rw [findMonthIndex, if_neg (fun hc => not_lt_of_le_bd hle (by omega) (by omega) hc.2)]
      rw [findMonthIndex, if_neg (fun hc => not_lt_of_le_bd hle (by omega) (by omega) hc.2)]
      rw [findMonthIndex, if_pos (And.intro hle hlt)]
  case _ =>
      rw [findMonthIndex, if_neg (fun hc => not_lt_of_le_bd hle (by omega) (by omega) hc.2)]
      rw [findMonthIndex, if_neg (fun hc => not_lt_of_le_bd hle (by omega) (by omega) hc.2)]
      rw [findMonthIndex, if_neg (fun hc => not_lt_of_le_bd hle (by omega) (by omega) hc.2)]
      rw [findMonthIndex, if_neg (fun hc => not_lt_of_le_bd hle (by omega) (by omega) hc.2)]
      rw [findMonthIndex, if_neg (fun hc => not_lt_of_le_bd hle (by omega) (by omega) hc.2)]
      rw [findMonthIndex, if_neg (fun hc => not_lt_of_le_bd hle (by omega) (by omega) hc.2)]
      rw [findMonthIndex, if_neg (fun hc => not_lt_of_le_bd hle (by omega) (by omega) hc.2)]
      rw [findMonthIndex, if_neg (fun hc => not_lt_of_le_bd hle (by omega) (by omega) hc.2)]
      rw [findMonthIndex, if_neg (fun hc => not_lt_of_le_bd hle (by omega) (by omega) hc.2)]
      rw [findMonthIndex, if_neg (fun hc => not_lt_of_le_bd hle (by omega) (by omega) hc.2)]
      rw [findMonthIndex, if_pos (And.intro hle hlt)]

/-- The interval search fails when the date-time is at or past the last
boundary. -/
lemma findMonthIndex_after_last {dt : DateTime} {y : Nat}
    (hle : DateTime.Le (specBoundary y 11) dt) :
    findMonthIndex dt (specBoundaryList y) 0 = none := by
  simp only [specBoundaryList]
  rw [findMonthIndex, if_neg (fun hc => not_lt_of_le_bd hle (by omega) (by omega) hc.2)]
  rw [findMonthIndex, if_neg (fun hc => not_lt_of_le_bd hle (by omega) (by omega) hc.2)]
  rw [findMonthIndex, if_neg (fun hc => not_lt_of_le_bd hle (by omega) (by omega) hc.2)]
  rw [findMonthIndex, if_neg (fun hc => not_lt_of_le_bd hle (by omega) (by omega) hc.2)]
  rw [findMonthIndex, if_neg (fun hc => not_lt_of_le_bd hle (by omega) (by omega) hc.2)]
  rw [findMonthIndex, if_neg (fun hc => not_lt_of_le_bd hle (by omega) (by omega) hc.2)]
  rw [findMonthIndex, if_neg (fun hc => not_lt_of_le_bd hle (by omega) (by omega) hc.2)]
  rw [findMonthIndex, if_neg (fun hc => not_lt_of_le_bd hle (by omega) (by omega) hc.2)]
  rw [findMonthIndex, if_neg (fun hc => not_lt_of_le_bd hle (by omega) (by omega) hc.2)]
  rw [findMonthIndex, if_neg (fun hc => not_lt_of_le_bd hle (by omega) (by omega) hc.2)]
  rw [findMonthIndex, if_neg (fun hc => not_lt_of_le_bd hle (by omega) (by omega) hc.2)]
  rw [findMonthIndex]

lemma monthBranchIdx_of_interval {dt : DateTime} {i : Nat} (hi : i < 11)
    (hle : DateTime.Le (specBoundary dt.year i) dt)
    (hlt : DateTime.Lt dt (specBoundary dt.year (i + 1))) :
    monthBranchIdx dt = (2 + (i : Int)) % 12 := by
  unfold monthBranchIdx
  rw [if_neg (not_lt_of_le_bd hle (by omega) (by omega)),
    findMonthIndex_interval hi hle hlt]

lemma monthBranchIdx_before_first {dt : DateTime}
    (hlt : DateTime.Lt dt (specBoundary dt.year 0)) : monthBranchIdx dt = 1 := by
  unfold monthBranchIdx
  rw [if_pos hlt]

lemma monthBranchIdx_after_last {dt : DateTime}
    (hle : DateTime.Le (specBoundary dt.year 11) dt) : monthBranchIdx dt = 1 := by
  unfold monthBranchIdx
  rw [if_neg (not_lt_of_le_bd hle (by omega) (by omega)),
    findMonthIndex_after_last hle]

lemma monthBranchIdx_range (dt : DateTime) :
    0 ≤ monthBranchIdx dt ∧ monthBranchIdx dt < 12 := by
  unfold monthBranchIdx
  split_ifs
  · omega
  · cases hf : findMonthIndex dt (specBoundaryList dt.year) 0 with
    | none => simp only [hf]; omega
    | some i => simp only [hf]; omega

lemma optionList_eq_none {α : Type} {l : List (Option α)} (h : none ∈ l) :
    optionList l = none := by
  induction l with
  | nil => simp at h
  | cons o rest ih =>
    rcases List.mem_cons.mp h with h1 | h2
    · rw [← h1]
      rfl
    · cases o with
      | none => rfl
      | some a => simp [optionList, ih h2]

lemma boundary_dates_none_of_ge (y : Nat) (h : 9999 ≤ y) : boundary_dates y = none := by
  unfold boundary_dates boundaries
  simp only [List.enum, List.enumFrom, List.map]
  norm_num
  have hlast : mkDatetime (y + 1) 1 6 0 0 = none := by
    unfold mkDatetime
    rw [if_neg]
    intro hc
    omega
  rw [hlast]
  exact optionList_eq_none (by simp)

lemma get_month_pillar_year_bounds {ys yb : Int} {dt : DateTime} {p : Int × Int}
    (hp : get_month_pillar ys yb dt = some p) : 1 ≤ dt.year ∧ dt.year ≤ 9998 := by
  by_contra hcon
  have hcases : dt.year = 0 ∨ 9999 ≤ dt.year := by omega
  have hnone : boundary_dates dt.year = none := by
    rcases hcases with h0 | h9
    · rw [h0]; decide
    · exact boundary_dates_none_of_ge dt.year h9
  unfold get_month_pillar at hp
  rw [hnone] at hp
  simp at hp

/-! ### Claim theorems -/

/-- C2: For every input date-time, the month branch index returned by
`get_month_pillar` is `(2 + i) mod 12` when the date-time lies in the
half-open interval `[boundary i, boundary (i+1))` of the twelve fixed
solar-term boundaries starting at Feb 4 (a date-time exactly equal to a
boundary belongs to the new branch's interval), and is 1 (Chou) when the
date-time is before the first boundary or at/past the last boundary. -/
theorem month_branch_interval_spec (ys yb : Int) (dt : DateTime) (p : Int × Int)
    (hp : get_month_pillar ys yb dt = some p) :
    (∀ i : Nat, i < 11 → DateTime.Le (specBoundary dt.year i) dt →
        DateTime.Lt dt (specBoundary dt.year (i + 1)) → p.2 = (2 + (i : Int)) % 12)
    ∧ (DateTime.Lt dt (specBoundary dt.year 0) → p.2 = 1)
    ∧ (DateTime.Le (specBoundary dt.year 11) dt → p.2 = 1) := by
  obtain ⟨h1, h2⟩ := get_month_pillar_year_bounds hp
  rw [get_month_pillar_eq ys yb dt h1 h2] at hp
  injection hp with hpair
  refine ⟨?_, ?_, ?_⟩
  · intro i hi hle hlt
    rw [← hpair]
    exact monthBranchIdx_of_interval hi hle hlt
  · intro hlt
    rw [← hpair]
    exact monthBranchIdx_before_first hlt
  · intro hle
    rw [← hpair]
    exact monthBranchIdx_after_last hle

/-- Witness for C2 at the spec's boundary edge case 1990-02-04T00:00:
the input equals the first boundary and lands in the new interval, branch
index 2 (Yin). -/
theorem month_branch_interval_spec_witness :
    get_month_pillar 0 0 ⟨1990, 2, 4, 0, 0⟩ = some (2, 2) ∧
    DateTime.Le (specBoundary 1990 0) ⟨1990, 2, 4, 0, 0⟩ ∧
    ((2 : Int), (2 : Int)).2 = (2 + ((0 : Nat) : Int)) % 12 := by
  have hp : get_month_pillar 0 0 ⟨1990, 2, 4, 0, 0⟩ = some (2, 2) := by decide
  refine ⟨hp, by decide, ?_⟩
  exact (month_branch_interval_spec 0 0 ⟨1990, 2, 4, 0, 0⟩ (2, 2) hp).1 0 (by omega)
    (by decide) (by decide)

/-- C6: the month stem returned by `get_month_pillar` equals
`(startStem + ((branchIndex - 2) mod 12)) mod 10` where `startStem` is the
Five Tigers table value of the year stem (pairs five apart agree:
0 and 5 give 2, 1 and 6 give 4, 2 and 7 give 6, 3 and 8 give 8, 4 and 9
give 0), defaulting to 2 outside 0..9. -/
theorem month_stem_five_tigers_spec (ys yb : Int) (dt : DateTime) (p : Int × Int)
    (hp : get_month_pillar ys yb dt = some p) :
    p.1 = (five_tigers_start ys + ((p.2 - 2) % 12)) % 10
    ∧ five_tigers_start 0 = 2 ∧ five_tigers_start 5 = 2
    ∧ five_tigers_start 1 = 4 ∧ five_tigers_start 6 = 4
    ∧ five_tigers_start 2 = 6 ∧ five_tigers_start 7 = 6
    ∧ five_tigers_start 3 = 8 ∧ five_tigers_start 8 = 8
    ∧ five_tigers_start 4 = 0 ∧ five_tigers_start 9 = 0
    ∧ (∀ s : Int, s < 0 ∨ 9 < s → five_tigers_start s = 2) := by
  obtain ⟨h1, h2⟩ := get_month_pillar_year_bounds hp
  rw [get_month_pillar_eq ys yb dt h1 h2] at hp
  injection hp with hpair
  refine ⟨?_, by decide, by decide, by decide, by decide, by decide, by decide, by decide,
    by decide, by decide, by decide, ?_⟩
  · rw [← hpair]
  · intro s hs
    unfold five_tigers_start
    split_ifs <;> omega

/-- Witness for C6: June 1984 with year stem 0 (Jia) gives starting stem
2 and month branch 6 (Wu), hence month stem (2 + 4) mod 10 = 6. -/
theorem month_stem_five_tigers_spec_witness :
    get_month_pillar 0 0 ⟨1984, 6, 10, 12, 0⟩ = some (6, 6) ∧
    ((6 : Int), (6 : Int)).1 = (five_tigers_start 0 + ((((6 : Int), (6 : Int)).2 - 2) % 12)) % 10 := by
  have hp : get_month_pillar 0 0 ⟨1984, 6, 10, 12, 0⟩ = some (6, 6) := by decide
  exact ⟨hp, (month_stem_five_tigers_spec 0 0 ⟨1984, 6, 10, 12, 0⟩ (6, 6) hp).1⟩

/-- C10: `get_month_pillar` does not depend on its `year_branch`
argument — the parameter is accepted and never read. -/
theorem month_pillar_ignores_year_branch (ys b1 b2 : Int) (dt : DateTime) :
    get_month_pillar ys b1 dt = get_month_pillar ys b2 dt := rfl

/-- C3: `get_year_pillar` resolves the BaZi year as the calendar year,
decremented by 1 exactly when the date-time falls before that year's
boundary (the table entry when present, else the Feb-4 fallback, which
never raises), and returns `(Y - 1984) mod 10` and `(Y - 1984) mod 12`,
both normalized to the non-negative range. -/
theorem year_pillar_matches_spec (lunar_new_year : Nat → Option DateTime) (dt : DateTime)
    (hv : ValidDT dt) :
    get_year_pillar lunar_new_year dt =
      ((resolvedBaziYear lunar_new_year dt - 1984) % 10,
       (resolvedBaziYear lunar_new_year dt - 1984) % 12)
    ∧ 0 ≤ (resolvedBaziYear lunar_new_year dt - 1984) % 10
    ∧ 0 ≤ (resolvedBaziYear lunar_new_year dt - 1984) % 12 := by
  obtain ⟨hy1, _, _, _, _, _, _, _⟩ := hv
  have hiff : DateTime.Lt dt ⟨dt.year, 2, 4, 0, 0⟩ ↔
      (dt.month < 2 ∨ (dt.month = 2 ∧ dt.day < 4)) := by
    unfold DateTime.Lt
    dsimp only
    omega
  refine ⟨?_, by omega, by omega⟩
  simp only [get_year_pillar, resolvedBaziYear]
  cases h : lunar_new_year dt.year with
  | some lny =>
      dsimp only
      split_ifs with hlt <;> (simp only [Prod.mk.injEq]; constructor <;> omega)
  | none =>
      dsimp only
      simp only [hiff]
      split_ifs with hlt <;> (simp only [Prod.mk.injEq]; constructor <;> omega)

/-- Witness for C3: 1984-06-01 with no table entry resolves to BaZi year
1984 and yields stem index 0, branch index 0 (Jia-Zi). -/
theorem year_pillar_matches_spec_witness :
    ValidDT ⟨1984, 6, 1, 0, 0⟩ ∧
    get_year_pillar (fun _ => none) ⟨1984, 6, 1, 0, 0⟩ = (0, 0) := by
  have hv : ValidDT ⟨1984, 6, 1, 0, 0⟩ := by decide
  refine ⟨hv, ?_⟩
  rw [(year_pillar_matches_spec (fun _ => none) ⟨1984, 6, 1, 0, 0⟩ hv).1]
  decide

/-- C4: `get_day_pillar` returns `(6 + deltaDays) mod 10` and
`(0 + deltaDays) mod 12`, normalized to the non-negative range, where
`deltaDays` is the signed Gregorian day count from 1900-01-01: it is 0 at
the reference date and increases by exactly 1 per calendar day. -/
theorem day_pillar_matches_spec :
    (∀ dt : DateTime,
        get_day_pillar dt = ((6 + delta_days dt) % 10, (0 + delta_days dt) % 12)
        ∧ 0 ≤ (6 + delta_days dt) % 10 ∧ (6 + delta_days dt) % 10 < 10
        ∧ 0 ≤ (0 + delta_days dt) % 12 ∧ (0 + delta_days dt) % 12 < 12)
    ∧ delta_days ⟨1900, 1, 1, 0, 0⟩ = 0
    ∧ (∀ dt : DateTime, ValidDT dt → delta_days (nextDate dt) = delta_days dt + 1) := by
  refine ⟨?_, by decide, ?_⟩
  · intro dt
    exact ⟨rfl, by omega, by omega, by omega, by omega⟩
  · intro dt hv
    unfold delta_days
    rw [toOrdinal_nextDate dt hv]
    push_cast
    omega

/-- Witness for C4 at 1899-12-31, one day before the reference: the delta
is negative (-1) and the pillar is stem 5, branch 11; the successor
property holds at that date. -/
theorem day_pillar_matches_spec_witness :
    ValidDT ⟨1899, 12, 31, 0, 0⟩ ∧
    delta_days (nextDate ⟨1899, 12, 31, 0, 0⟩) = delta_days ⟨1899, 12, 31, 0, 0⟩ + 1 ∧
    delta_days ⟨1899, 12, 31, 0, 0⟩ = -1 ∧
    get_day_pillar ⟨1899, 12, 31, 0, 0⟩ = (5, 11) := by
  have hv : ValidDT ⟨1899, 12, 31, 0, 0⟩ := by decide
  refine ⟨hv, day_pillar_matches_spec.2.2 ⟨1899, 12, 31, 0, 0⟩ hv, by decide, ?_⟩
  rw [(day_pillar_matches_spec.1 ⟨1899, 12, 31, 0, 0⟩).1]
  decide

/-- C5: `get_hour_pillar` maps the hour to branch
`((hour + 1) div 2) mod 12` and stem `(dayStem * 2 + branch) mod 10`
(Five Rats rule), ignores sub-hour precision, and sends hour 23 and
hour 0 both to branch 0 with the same stem. -/
theorem hour_pillar_matches_spec (ds : Int) (dt : DateTime) (hh : dt.hour ≤ 23) :
    get_hour_pillar ds dt =
      ((ds * 2 + ((((dt.hour + 1) / 2) % 12 : Nat) : Int)) % 10,
       ((((dt.hour + 1) / 2) % 12 : Nat) : Int))
    ∧ (∀ dt' : DateTime, dt'.hour = dt.hour → get_hour_pillar ds dt' = get_hour_pillar ds dt)
    ∧ ((dt.hour = 23 ∨ dt.hour = 0) →
        (get_hour_pillar ds dt).2 = 0 ∧ (get_hour_pillar ds dt).1 = ds * 2 % 10) := by
  refine ⟨rfl, ?_, ?_⟩
  · intro dt' h
    unfold get_hour_pillar
    rw [h]
  · intro hc
    unfold get_hour_pillar
    dsimp only
    rcases hc with h | h <;> rw [h] <;> norm_num

/-- Witness for C5: day stem 6 at 23:59 gives branch 0 (Zi) and stem
(6 * 2 + 0) mod 10 = 2, the same pillar as at 00:00. -/
theorem hour_pillar_matches_spec_witness :
    (⟨1990, 2, 4, 23, 59⟩ : DateTime).hour ≤ 23 ∧
    get_hour_pillar 6 ⟨1990, 2, 4, 23, 59⟩ = (2, 0) ∧
    get_hour_pillar 6 ⟨1990, 2, 4, 23, 59⟩ = get_hour_pillar 6 ⟨1990, 2, 4, 0, 0⟩ := by
  refine ⟨by decide, ?_, ?_⟩
  · rw [(hour_pillar_matches_spec 6 ⟨1990, 2, 4, 23, 59⟩ (by decide)).1]
    decide
  · rw [(hour_pillar_matches_spec 6 ⟨1990, 2, 4, 23, 59⟩ (by decide)).1,
      (hour_pillar_matches_spec 6 ⟨1990, 2, 4, 0, 0⟩ (by decide)).1]
    decide

/-- C8: the day pillar is periodic with period 60 in elapsed days: a date
whose Gregorian day count is 60 more than another's has the same
(stem, branch) pair. -/
theorem day_pillar_period_60 (d d' : DateTime) (h : delta_days d' = delta_days d + 60) :
    get_day_pillar d' = get_day_pillar d := by
  unfold get_day_pillar
  rw [h]
  simp only [Prod.mk.injEq]
  constructor <;> omega

/-- Witness for C8: 1900-03-02 is 60 days after 1900-01-01 and has the
same day pillar. -/
theorem day_pillar_period_60_witness :
    delta_days ⟨1900, 3, 2, 0, 0⟩ = delta_days ⟨1900, 1, 1, 0, 0⟩ + 60 ∧
    get_day_pillar ⟨1900, 3, 2, 0, 0⟩ = get_day_pillar ⟨1900, 1, 1, 0, 0⟩ := by
  have h : delta_days ⟨1900, 3, 2, 0, 0⟩ = delta_days ⟨1900, 1, 1, 0, 0⟩ + 60 := by decide
  exact ⟨h, day_pillar_period_60 ⟨1900, 1, 1, 0, 0⟩ ⟨1900, 3, 2, 0, 0⟩ h⟩

/-! ### Index range lemmas -/

lemma get_year_pillar_range (lny : Nat → Option DateTime) (dt : DateTime) :
    0 ≤ (get_year_pillar lny dt).1 ∧ (get_year_pillar lny dt).1 < 10 ∧
    0 ≤ (get_year_pillar lny dt).2 ∧ (get_year_pillar lny dt).2 < 12 := by
  unfold get_year_pillar
  dsimp only
  omega

lemma get_day_pillar_range (dt : DateTime) :
    0 ≤ (get_day_pillar dt).1 ∧ (get_day_pillar dt).1 < 10 ∧
    0 ≤ (get_day_pillar dt).2 ∧ (get_day_pillar dt).2 < 12 := by
  unfold get_day_pillar
  dsimp only
  omega

lemma get_hour_pillar_range (ds : Int) (dt : DateTime) :
    0 ≤ (get_hour_pillar ds dt).1 ∧ (get_hour_pillar ds dt).1 < 10 ∧
    0 ≤ (get_hour_pillar ds dt).2 ∧ (get_hour_pillar ds dt).2 < 12 := by
  unfold get_hour_pillar
  dsimp only
  omega

lemma get_month_pillar_range {ys yb : Int} {dt : DateTime} {p : Int × Int}
    (hp : get_month_pillar ys yb dt = some p) :
    0 ≤ p.1 ∧ p.1 < 10 ∧ 0 ≤ p.2 ∧ p.2 < 12 := by
  obtain ⟨h1, h2⟩ := get_month_pillar_year_bounds hp
  rw [get_month_pillar_eq ys yb dt h1 h2] at hp
  injection hp with hpair
  obtain ⟨hb1, hb2⟩ := monthBranchIdx_range dt
  rw [← hpair]
  dsimp only
  omega

/-- C9: every pillar of a computed result has stem index in 0..9 and
branch index in 0..11. -/
theorem pillar_indices_in_range (tbl : Nat → Option DateTime) (dt : DateTime) (r : BaziResult)
    (hv : ValidDT dt) (hr : calculate_bazi tbl dt = some r) :
    ∀ p ∈ r.pillars, 0 ≤ p.stem_index ∧ p.stem_index < 10 ∧
      0 ≤ p.branch_index ∧ p.branch_index < 12 := by
  unfold calculate_bazi at hr
  dsimp only at hr
  cases hm : get_month_pillar (get_year_pillar tbl dt).1 (get_year_pillar tbl dt).2 dt with
  | none =>
      rw [hm] at hr
      simp at hr
  | some mp =>
      rw [hm] at hr
      simp only [Option.bind_eq_bind, Option.some_bind] at hr
      injection hr with hr'
      intro p hp
      rw [← hr'] at hp
      simp only [List.mem_cons, List.not_mem_nil, or_false] at hp
      have hy := get_year_pillar_range tbl dt
      have hd := get_day_pillar_range dt
      have hh := get_hour_pillar_range (get_day_pillar dt).1 dt
      have hmr := get_month_pillar_range hm
      rcases hp with rfl | rfl | rfl | rfl <;> dsimp only <;> tauto

/-- Witness for C9: the pillars computed for 1990-02-04T00:00 are all in
range. -/
theorem pillar_indices_in_range_witness :
    ValidDT ⟨1990, 2, 4, 0, 0⟩ ∧
    ((calculate_bazi (fun _ => none) ⟨1990, 2, 4, 0, 0⟩).elim False
      (fun r => ∀ p ∈ r.pillars, 0 ≤ p.stem_index ∧ p.stem_index < 10 ∧
        0 ≤ p.branch_index ∧ p.branch_index < 12)) := by
  refine ⟨by decide, ?_⟩
  cases hr : calculate_bazi (fun _ => none) ⟨1990, 2, 4, 0, 0⟩ with
  | none =>
      have : (calculate_bazi (fun _ => none) ⟨1990, 2, 4, 0, 0⟩).isSome = true := rfl
      rw [hr] at this
      simp at this
  | some r =>
      simp only [Option.elim]
      exact pillar_indices_in_range (fun _ => none) ⟨1990, 2, 4, 0, 0⟩ r (by decide) hr

/-! ### Element / polarity tally lemmas -/

/-- The five keys of the `elements_count` dict. -/
def elemKeys : List String := ["木", "火", "土", "金", "水"]

lemma stem_element_mem {i : Nat} (h : i < 10) : (stemAt i).element ∈ elemKeys := by
  interval_cases i <;> decide

lemma branch_element_mem {i : Nat} (h : i < 12) : (branchAt i).element ∈ elemKeys := by
  interval_cases i <;> decide

lemma stem_pol {i : Nat} (h : i < 10) :
    (stemAt i).yin_yang = "阴" ∨ (stemAt i).yin_yang = "阳" := by
  interval_cases i <;> decide

lemma branch_pol {i : Nat} (h : i < 12) :
    (branchAt i).yin_yang = "阴" ∨ (branchAt i).yin_yang = "阳" := by
  interval_cases i <;> decide

lemma dictInc_shape (a b c d e : Nat) (k : String) (hk : k ∈ elemKeys) :
    ∃ a' b' c' d' e',
      dictInc [("木", a), ("火", b), ("土", c), ("金", d), ("水", e)] k
        = [("木", a'), ("火", b'), ("土", c'), ("金", d'), ("水", e')]
      ∧ a' + b' + c' + d' + e' = a + b + c + d + e + 1 := by
  simp only [elemKeys, List.mem_cons, List.not_mem_nil, or_false] at hk
  rcases hk with rfl | rfl | rfl | rfl | rfl
  · exact ⟨a + 1, b, c, d, e, rfl, by omega⟩
  · exact ⟨a, b + 1, c, d, e, rfl, by omega⟩
  · exact ⟨a, b, c + 1, d, e, rfl, by omega⟩
  · exact ⟨a, b, c, d + 1, e, rfl, by omega⟩
  · exact ⟨a, b, c, d, e + 1, rfl, by omega⟩

lemma tally_step_shape (a b c d e yin yang : Nat) (p : PillarOut)
    (hs : p.stem_index.toNat < 10) (hb : p.branch_index.toNat < 12) :
    ∃ a' b' c' d' e' y' g',
      tally_step ([("木", a), ("火", b), ("土", c), ("金", d), ("水", e)], yin, yang) p
        = ([("木", a'), ("火", b'), ("土", c'), ("金", d'), ("水", e')], y', g')
      ∧ a' + b' + c' + d' + e' = a + b + c + d + e + 2
      ∧ y' + g' = yin + yang + 2 := by
  obtain ⟨a1, b1, c1, d1, e1, hE1, hS1⟩ :=
    dictInc_shape a b c d e (stemAt p.stem_index.toNat).element (stem_element_mem hs)
  obtain ⟨a2, b2, c2, d2, e2, hE2, hS2⟩ :=
    dictInc_shape a1 b1 c1 d1 e1 (branchAt p.branch_index.toNat).element (branch_element_mem hb)
  refine ⟨a2, b2, c2, d2, e2,
    yin + (if (stemAt p.stem_index.toNat).yin_yang = "阴" then 1 else 0)
        + (if (branchAt p.branch_index.toNat).yin_yang = "阴" then 1 else 0),
    yang + (if (stemAt p.stem_index.toNat).yin_yang = "阳" then 1 else 0)
         + (if (branchAt p.branch_index.toNat).yin_yang = "阳" then 1 else 0),
    ?_, by omega, ?_⟩
  · unfold tally_step
    dsimp only
    rw [hE1, hE2]
  · rcases stem_pol hs with hp1 | hp1 <;> rcases branch_pol hb with hp2 | hp2 <;>
      simp [hp1, hp2] <;> omega

lemma tally_sum : ∀ (ps : List PillarOut),
    (∀ p ∈ ps, p.stem_index.toNat < 10 ∧ p.branch_index.toNat < 12) →
    ∀ a b c d e yin yang,
    ∃ a' b' c' d' e' y' g',
      ps.foldl tally_step ([("木", a), ("火", b), ("土", c), ("金", d), ("水", e)], yin, yang)
        = ([("木", a'), ("火", b'), ("土", c'), ("金", d'), ("水", e')], y', g')
      ∧ a' + b' + c' + d' + e' = a + b + c + d + e + 2 * ps.length
      ∧ y' + g' = yin + yang + 2 * ps.length := by
  intro ps
  induction ps with
  | nil =>
      intro _ a b c d e yin yang
      exact ⟨a, b, c, d, e, yin, yang, rfl, by simp, by simp⟩
  | cons p ps ih =>
      intro hps a b c d e yin yang
      obtain ⟨hsp, hbp⟩ := hps p (List.mem_cons_self p ps)
      obtain ⟨a1, b1, c1, d1, e1, y1, g1, hstep, hS1, hY1⟩ :=
        tally_step_shape a b c d e yin yang p hsp hbp
      obtain ⟨a2, b2, c2, d2, e2, y2, g2, hfold, hS2, hY2⟩ :=
        ih (fun q hq => hps q (List.mem_cons_of_mem p hq)) a1 b1 c1 d1 e1 y1 g1
      refine ⟨a2, b2, c2, d2, e2, y2, g2, ?_, by simp; omega, by simp; omega⟩
      rw [List.foldl_cons, hstep, hfold]

/-- C7: for every computed result the five element counters sum to 8 and
the yin and yang counters sum to 8. -/
theorem bazi_counts_sum_eight (tbl : Nat → Option DateTime) (dt : DateTime) (r : BaziResult)
    (hv : ValidDT dt) (hr : calculate_bazi tbl dt = some r) :
    (r.elements_count.map Prod.snd).sum = 8 ∧ r.yin + r.yang = 8 := by
  unfold calculate_bazi at hr
  dsimp only at hr
  cases hm : get_month_pillar (get_year_pillar tbl dt).1 (get_year_pillar tbl dt).2 dt with
  | none =>
      rw [hm] at hr
      simp at hr
  | some mp =>
      rw [hm] at hr
      simp only [Option.bind_eq_bind, Option.some_bind] at hr
      injection hr with hr'
      have hy := get_year_pillar_range tbl dt
      have hd := get_day_pillar_range dt
      have hh := get_hour_pillar_range (get_day_pillar dt).1 dt
      have hmr := get_month_pillar_range hm
      have hbounds : ∀ p ∈ ([
          ⟨"年柱", (get_year_pillar tbl dt).1, (get_year_pillar tbl dt).2,
            (stemAt (get_year_pillar tbl dt).1.toNat).name,
            (branchAt (get_year_pillar tbl dt).2.toNat).name⟩,
          ⟨"月柱", mp.1, mp.2, (stemAt mp.1.toNat).name, (branchAt mp.2.toNat).name⟩,
          ⟨"日柱", (get_day_pillar dt).1, (get_day_pillar dt).2,
            (stemAt (get_day_pillar dt).1.toNat).name,
            (branchAt (get_day_pillar dt).2.toNat).name⟩,
          ⟨"时柱", (get_hour_pillar (get_day_pillar dt).1 dt).1,
            (get_hour_pillar (get_day_pillar dt).1 dt).2,
            (stemAt (get_hour_pillar (get_day_pillar dt).1 dt).1.toNat).name,
            (branchAt (get_hour_pillar (get_day_pillar dt).1 dt).2.toNat).name⟩] : List PillarOut),
          p.stem_index.toNat < 10 ∧ p.branch_index.toNat < 12 := by
        intro p hp
        simp only [List.mem_cons, List.not_mem_nil, or_false] at hp
        rcases hp with rfl | rfl | rfl | rfl <;> dsimp only <;> constructor <;> omega
      obtain ⟨a', b', c', d', e', y', g', hfold, hsum, hyy⟩ :=
        tally_sum _ hbounds 0 0 0 0 0 0 0
      rw [← hr']
      dsimp only
      simp only [init_elements]
      rw [hfold]
      simp only [List.length_cons, List.length_nil] at hsum hyy
      dsimp only
      simp only [List.map_cons, List.map_nil, List.sum_cons, List.sum_nil]
      constructor <;> omega

/-- Witness for C7: the result computed for 1990-02-04T00:00 has element
counts summing to 8 and yin plus yang equal to 8. -/
theorem bazi_counts_sum_eight_witness :
    ValidDT ⟨1990, 2, 4, 0, 0⟩ ∧
    ((calculate_bazi (fun _ => none) ⟨1990, 2, 4, 0, 0⟩).elim False
      (fun r => (r.elements_count.map Prod.snd).sum = 8 ∧ r.yin + r.yang = 8)) := by
  refine ⟨by decide, ?_⟩
  cases hr : calculate_bazi (fun _ => none) ⟨1990, 2, 4, 0, 0⟩ with
  | none =>
      have hs : (calculate_bazi (fun _ => none) ⟨1990, 2, 4, 0, 0⟩).isSome = true := rfl
      rw [hr] at hs
      simp at hs
  | some r =>
      simp only [Option.elim]
      exact bazi_counts_sum_eight (fun _ => none) ⟨1990, 2, 4, 0, 0⟩ r (by decide) hr

/-! ### Totality and the year-9999 failure -/

/-- A date strictly before the 1900-01-01 reference has a negative day
delta. -/
lemma delta_days_neg_of_before_ref (dt : DateTime) (hv : ValidDT dt)
    (hlt : DateTime.Lt dt ⟨1900, 1, 1, 0, 0⟩) : delta_days dt < 0 := by
  obtain ⟨y, mo, d, hh, mi⟩ := dt
  obtain ⟨hy1, hy2, hm1, hm2, hd1, hd2, _, _⟩ := hv
  dsimp only at *
  have hy : y ≤ 1899 := by
    unfold DateTime.Lt at hlt
    dsimp only at hlt
    omega
  have hdbm : daysBeforeMonth y mo + d ≤ 365 + (if isLeap y then 1 else 0) := by
    interval_cases mo <;>
      (simp only [daysBeforeMonth, daysInMonth] at hd2 ⊢; split_ifs at * <;> omega)
  have hord : toOrdinal y mo d < toOrdinal 1900 1 1 := by
    unfold toOrdinal
    norm_num [daysBeforeMonth]
    by_cases hL : isLeap y
    · rw [if_pos hL] at hdbm
      unfold isLeap at hL
      omega
    · rw [if_neg hL] at hdbm
      unfold isLeap at hL
      omega
  unfold delta_days
  dsimp only
  omega

/-- C1 (amended): for every representable date-time whose year is at most
9998 the whole computation succeeds without raising; in particular dates
before 1900-01-01 compute with a negative day delta.  (Year 9999 raises:
see the counterexample.) -/
theorem calculate_bazi_total_below_9999 (tbl : Nat → Option DateTime) (dt : DateTime)
    (hv : ValidDT dt) (hy : dt.year ≤ 9998) :
    (calculate_bazi tbl dt).isSome = true
    ∧ (DateTime.Lt dt ⟨1900, 1, 1, 0, 0⟩ → delta_days dt < 0) := by
  constructor
  · unfold calculate_bazi
    dsimp only
    rw [get_month_pillar_eq (get_year_pillar tbl dt).1 (get_year_pillar tbl dt).2 dt hv.1 hy]
    simp only [Option.bind_eq_bind, Option.some_bind, Option.isSome_some]
  · intro hlt
    exact delta_days_neg_of_before_ref dt hv hlt

/-- Witness for the amended C1 at 1850-03-10T05:30, a pre-1900 input: the
computation succeeds and the day delta is negative. -/
theorem calculate_bazi_total_below_9999_witness :
    ValidDT ⟨1850, 3, 10, 5, 30⟩ ∧ (⟨1850, 3, 10, 5, 30⟩ : DateTime).year ≤ 9998 ∧
    (calculate_bazi (fun _ => none) ⟨1850, 3, 10, 5, 30⟩).isSome = true ∧
    delta_days ⟨1850, 3, 10, 5, 30⟩ < 0 := by
  have h := calculate_bazi_total_below_9999 (fun _ => none) ⟨1850, 3, 10, 5, 30⟩
    (by decide) (by decide)
  exact ⟨by decide, by decide, h.1, h.2 (by decide)⟩

/-- Counterexample to C1 as stated: 9999-06-01T12:00 is a representable
civil date-time, yet `calculate_bazi` raises (the January boundary is
`datetime(10000, 1, 6)`, outside `datetime.MAXYEAR`), modelled as `none`. -/
theorem calculate_bazi_raises_in_9999 :
    ValidDT ⟨9999, 6, 1, 12, 0⟩ ∧
    calculate_bazi (fun _ => none) ⟨9999, 6, 1, 12, 0⟩ = none := by
  exact ⟨by decide, by decide⟩
